import Mathlib

/-!
Verification of freeipaconsistencycheck: a shallow embedding of the
per-server data-collection code (`server/freeipaserver.py`) and of the
cross-server consistency evaluator (`main.py`), with theorems settling
the frozen claims about them.

Modelling conventions:
* Python attribute values (`Optional[str] / Optional[int] / Optional[bool]`)
  are modelled by the tagged type `Value`; the Python `None` sentinel is
  `Value.none`.  Python `==` between the values that actually occur for a
  single metric (all of one tag, or `None`) coincides with structural
  equality on `Value`.
* LDAP attribute values (Python `List[bytes]`) are modelled as `List String`
  of their decoded contents; `_safe_decode` then becomes a head access.
* `_search` returning a result list is `SearchOutcome.results`, returning
  `False` (NO_SUCH_OBJECT / SERVER_DOWN / no connection) is
  `SearchOutcome.failed`, and raising `LDAPReferralError` on an LDAP
  referral is `SearchOutcome.referral`.
* Collector methods return `Except Unit α`; `.error ()` models an exception
  propagating out of the method (the referral raise, or an index error on a
  present-but-empty attribute value list, both of which reach the same
  handlers in `FreeIPAServer.__init__`).
-/

/-- Tagged model of the Python values stored in `FreeIPAServer` metric
attributes: `None`, `int`, `str` or `bool`. -/
inductive Value where
  | none : Value
  | int : Int → Value
  | str : String → Value
  | bool : Bool → Value
deriving DecidableEq, Repr

/-- One LDAP entry as returned by `_search`: a distinguished name and an
attribute map (association list from attribute name to decoded values). -/
structure Entry where
  dn : String
  attrs : List (String × List String)
deriving DecidableEq, Repr

/-- Outcome of `FreeIPAServer._search` (src/freeipaconsistencycheck/server/
freeipaserver.py lines 245-273): a result list, `False` on
NO_SUCH_OBJECT / SERVER_DOWN / missing connection, or a raised
`LDAPReferralError` on an LDAP referral. -/
inductive SearchOutcome where
  | results : List Entry → SearchOutcome
  | failed : SearchOutcome
  | referral : SearchOutcome
deriving DecidableEq, Repr

/-- Python `attrs[name]` / `name in attrs` on the attribute map. -/
def lookupAttr (attrs : List (String × List String)) (name : String) :
    Option (List String) :=
  (attrs.find? (fun p => p.1 == name)).map (fun p => p.2)

/-- `FreeIPAServer._safe_decode` applied to a whole value list (lines
275-284): take the first item, or the empty string when the list is empty. -/
def safe_decode (value : List String) : String :=
  value.headD ""

/-- Python `str.upper()` restricted to the ASCII values this program
compares (`on`, `off`, `rootdse`). -/
def pyUpper (s : String) : String :=
  String.mk (s.toList.map Char.toUpper)

/-- Python substring membership `needle in hay` on character lists. -/
def listContainsSub (needle : List Char) : List Char → Bool
  | [] => needle.isEmpty
  | c :: rest => needle.isPrefixOf (c :: rest) || listContainsSub needle rest

/-- Python substring membership `needle in hay` on strings. -/
def strContains (hay needle : String) : Bool :=
  listContainsSub needle.toList hay.toList

/-- Scanner for Python `str.replace(old, new)`: when `skip` is positive the
character belongs to an occurrence of `old` already replaced and is
dropped; otherwise an occurrence of `old` starting here is replaced by
`new` (and its remaining `old.length - 1` characters scheduled for
dropping), and any other character is kept.  Structural recursion on the
character list. -/
def pyReplaceGo (old new : List Char) : Nat → List Char → List Char
  | _, [] => []
  | Nat.succ k, _ :: rest => pyReplaceGo old new k rest
  | 0, c :: rest =>
    if old ≠ [] ∧ old.isPrefixOf (c :: rest) then
      new ++ pyReplaceGo old new (old.length - 1) rest
    else
      c :: pyReplaceGo old new 0 rest

/-- Python `str.replace(old, new)` on character lists: replace every
non-overlapping occurrence of `old`, scanning left to right.  (The program
only calls it with a non-empty `old`; for an empty `old` this returns the
input unchanged.) -/
def pyReplace (old new : List Char) (l : List Char) : List Char :=
  pyReplaceGo old new 0 l

/-- Python `str.partition(" ")[0]` on character lists: the part before the
first space (the whole list when there is none). -/
def beforeSpace : List Char → List Char
  | [] => []
  | c :: rest => if c = ' ' then [] else c :: beforeSpace rest

/-- Python `str.strip("()")` on character lists: drop leading and trailing
characters belonging to the set `\x7b ( , ) \x7d`. -/
def stripParens (l : List Char) : List Char :=
  ((l.dropWhile fun c => c = '(' || c = ')').reverse.dropWhile
    fun c => c = '(' || c = ')').reverse

/-- The status normalisation of `_replication_agreements` (freeipaserver.py
line 674): `status.replace("Error ", "").partition(" ")[0].strip("()")`. -/
def normalize_status (status : String) : String :=
  String.mk (stripParens (beforeSpace (pyReplace "Error ".toList [] status.toList)))

/-- `FreeIPAServer._count_users` (lines 350-368), also the shape of any
`numSubordinates` subtree counter: on a failed or empty search the text "0";
otherwise `_safe_decode(attrs.get("numSubordinates", ["0"])[0])` on the
first entry.  A present attribute with an empty value list makes the `[0]`
index raise, modelled as `.error ()`. -/
def count_users (o : SearchOutcome) : Except Unit String :=
  match o with
  | .referral => .error ()
  | .failed => .ok "0"
  | .results [] => .ok "0"
  | .results (e :: _) =>
    match lookupAttr e.attrs "numSubordinates" with
    | Option.none => .ok "0"
    | some [] => .error ()
    | some (v :: _) => .ok v

/-- `FreeIPAServer._count_hostgroups` (lines 439-458): identical decoding to
`_count_users` (the `numSubordinates` value of the first entry, "0" on a
failed or empty search). -/
def count_hostgroups (o : SearchOutcome) : Except Unit String :=
  match o with
  | .referral => .error ()
  | .failed => .ok "0"
  | .results [] => .ok "0"
  | .results (e :: _) =>
    match lookupAttr e.attrs "numSubordinates" with
    | Option.none => .ok "0"
    | some [] => .error ()
    | some (v :: _) => .ok v

/-- The entry-count collectors `_count_hosts`, `_count_services`,
`_count_groups`, `_count_netgroups`, `_count_hbac_rules`,
`_count_sudo_rules`, `_count_dns_zones`, `_count_certificates`,
`_count_ldap_conflicts` (lines 370-552): the number of entries returned, 0
on a failed search. -/
def count_len (o : SearchOutcome) : Except Unit Nat :=
  match o with
  | .referral => .error ()
  | .failed => .ok 0
  | .results es => .ok es.length

/-- `FreeIPAServer._ghost_replicas` (lines 554-577): over the sub-values of
the `nscpentrywsi` attribute of the first returned tombstone entry, count
those whose text contains "replica " but not "ldap".  (The Python code
applies `str` to each raw sub-value; the `b'...'` wrapper that adds around
a bytes value contains neither "replica " nor "ldap", so counting on the
decoded contents is equivalent.) -/
def ghost_replicas (o : SearchOutcome) : Except Unit Nat :=
  match o with
  | .referral => .error ()
  | .failed => .ok 0
  | .results [] => .ok 0
  | .results (e :: _) =>
    match lookupAttr e.attrs "nscpentrywsi" with
    | Option.none => .ok 0
    | some vals =>
      .ok (vals.countP fun attr =>
        strContains attr "replica " && !(strContains attr "ldap"))

/-- `FreeIPAServer._anon_bind` (lines 579-607): read
`nsslapd-allow-anonymous-access` from the first entry; if the decoded value
is (exactly) "on", "off" or "rootdse" return it uppercased, otherwise
"ERROR"; a failed search, an empty result or an absent attribute also give
"ERROR".  A present attribute with an empty value list makes the `[0]`
index raise. -/
def anon_bind (o : SearchOutcome) : Except Unit String :=
  match o with
  | .referral => .error ()
  | .failed => .ok "ERROR"
  | .results [] => .ok "ERROR"
  | .results (e :: _) =>
    match lookupAttr e.attrs "nsslapd-allow-anonymous-access" with
    | Option.none => .ok "ERROR"
    | some [] => .error ()
    | some (v :: _) =>
      if v = "on" ∨ v = "off" ∨ v = "rootdse" then .ok (pyUpper v)
      else .ok "ERROR"

/-- One iteration of the loop of `_replication_agreements` (lines 662-679):
entries lacking `nsDS5ReplicaHost` or `nsds5replicaLastUpdateStatus` are
skipped; otherwise the host (domain suffix removed) and the normalised
status are appended to the message list, and the healthy flag is cleared
when the status is neither "0" nor "18". -/
def agreementStep (domain : String) (acc : List String × Bool) (e : Entry) :
    Except Unit (List String × Bool) :=
  match lookupAttr e.attrs "nsDS5ReplicaHost",
        lookupAttr e.attrs "nsds5replicaLastUpdateStatus" with
  | some (h0 :: _), some (s0 :: _) =>
    let host := String.mk (pyReplace ("." ++ domain).toList [] h0.toList)
    let status := normalize_status s0
    let healthy := if status = "0" ∨ status = "18" then acc.2 else false
    .ok (acc.1 ++ [host ++ " " ++ status], healthy)
  | some [], some _ => .error ()
  | some _, some [] => .error ()
  | _, _ => .ok acc

/-- `FreeIPAServer._replication_agreements` (lines 644-684): on a failed or
empty search the sentinel text with `healthy = False`; otherwise fold
`agreementStep` over the entries starting from `([], True)` and join the
collected messages (falling back to the sentinel text when every entry was
skipped, in which case the healthy flag keeps its initial `True`). -/
def replication_agreements (domain : String) (o : SearchOutcome) :
    Except Unit (String × Bool) :=
  match o with
  | .referral => .error ()
  | .failed => .ok ("No replication agreements found", false)
  | .results [] => .ok ("No replication agreements found", false)
  | .results entries => do
    let acc ← entries.foldlM (agreementStep domain) ([], true)
    .ok (if acc.1.isEmpty then "No replication agreements found"
         else String.intercalate "\n" acc.1, acc.2)

/-- The metric attributes of a `FreeIPAServer` instance (freeipaserver.py
lines 95-112), the 17 check attributes plus the `healthy_agreements`
flag read by the `replicas` consistency rule. -/
structure ServerState where
  users : Value
  susers : Value
  pusers : Value
  hosts : Value
  services : Value
  ugroups : Value
  hgroups : Value
  ngroups : Value
  hbac : Value
  «sudo» : Value
  zones : Value
  certs : Value
  conflicts : Value
  ghosts : Value
  bind : Value
  msdcs : Value
  replicas : Value
  healthy_agreements : Bool
deriving DecidableEq, Repr

/-- The default attribute values set at the top of `FreeIPAServer.__init__`
(lines 95-112): every metric is `None`, except `hbac` which the source
initialises to `0` ("Default to 0 instead of None") and
`healthy_agreements` which starts `False`. -/
def initState : ServerState :=
  { users := Value.none, susers := Value.none, pusers := Value.none,
    hosts := Value.none, services := Value.none, ugroups := Value.none,
    hgroups := Value.none, ngroups := Value.none, hbac := Value.int 0,
    «sudo» := Value.none, zones := Value.none, certs := Value.none,
    conflicts := Value.none, ghosts := Value.none, bind := Value.none,
    msdcs := Value.none, replicas := Value.none, healthy_agreements := false }

/-- The environment a server presents to one collection run: the outcome of
each metric's LDAP query, the domain (used by `_replication_agreements`)
and the result of the DNS-based `_ms_adtrust` check (which catches every
DNS exception internally and so always yields a boolean). -/
structure Env where
  domain : String
  users : SearchOutcome
  susers : SearchOutcome
  pusers : SearchOutcome
  hosts : SearchOutcome
  services : SearchOutcome
  ugroups : SearchOutcome
  hgroups : SearchOutcome
  ngroups : SearchOutcome
  hbac : SearchOutcome
  «sudo» : SearchOutcome
  zones : SearchOutcome
  certs : SearchOutcome
  conflicts : SearchOutcome
  ghosts : SearchOutcome
  bind : SearchOutcome
  msdcs : Bool
  replicas : SearchOutcome
deriving DecidableEq, Repr

/-- The metric-collection region of `FreeIPAServer.__init__` (lines
156-185).  The assignments run in source order inside the outer `try` of
lines 127-189; an exception escaping a collector (`.error`) is caught by
the outer handler, which only logs — so collection stops and the
attributes keep the values assigned so far.  Only the `hbac` and `sudo`
assignments sit in their own inner `try`/`except` blocks (lines 166-176),
which turn an exception into the default `0` and carry on. -/
def collect (env : Env) : ServerState :=
  let st0 := initState
  match count_users env.users with
  | .error _ => st0
  | .ok vUsers =>
  let st1 := { st0 with users := Value.str vUsers }
  match count_users env.susers with
  | .error _ => st1
  | .ok vSusers =>
  let st2 := { st1 with susers := Value.str vSusers }
  match count_users env.pusers with
  | .error _ => st2
  | .ok vPusers =>
  let st3 := { st2 with pusers := Value.str vPusers }
  match count_len env.hosts with
  | .error _ => st3
  | .ok nHosts =>
  let st4 := { st3 with hosts := Value.int nHosts }
  match count_len env.services with
  | .error _ => st4
  | .ok nServices =>
  let st5 := { st4 with services := Value.int nServices }
  match count_len env.ugroups with
  | .error _ => st5
  | .ok nUgroups =>
  let st6 := { st5 with ugroups := Value.int nUgroups }
  match count_hostgroups env.hgroups with
  | .error _ => st6
  | .ok vHgroups =>
  let st7 := { st6 with hgroups := Value.str vHgroups }
  match count_len env.ngroups with
  | .error _ => st7
  | .ok nNgroups =>
  let st8 := { st7 with ngroups := Value.int nNgroups }
  let st9 :=
    match count_len env.hbac with
    | .error _ => { st8 with hbac := Value.int 0 }
    | .ok nHbac => { st8 with hbac := Value.int nHbac }
  let st10 :=
    match count_len env.sudo with
    | .error _ => { st9 with «sudo» := Value.int 0 }
    | .ok nSudo => { st9 with «sudo» := Value.int nSudo }
  match count_len env.zones with
  | .error _ => st10
  | .ok nZones =>
  let st11 := { st10 with zones := Value.int nZones }
  match count_len env.certs with
  | .error _ => st11
  | .ok nCerts =>
  let st12 := { st11 with certs := Value.int nCerts }
  match count_len env.conflicts with
  | .error _ => st12
  | .ok nConflicts =>
  let st13 := { st12 with conflicts := Value.int nConflicts }
  match ghost_replicas env.ghosts with
  | .error _ => st13
  | .ok nGhosts =>
  let st14 := { st13 with ghosts := Value.int nGhosts }
  match anon_bind env.bind with
  | .error _ => st14
  | .ok vBind =>
  let st15 := { st14 with bind := Value.str vBind }
  let st16 := { st15 with msdcs := Value.bool env.msdcs }
  match replication_agreements env.domain env.replicas with
  | .error _ => st16
  | .ok res => { st16 with replicas := Value.str res.1,
                           healthy_agreements := res.2 }

/-- `FreeIPAServer.__init__` at the granularity the claims need.
`connected = false` models `_get_conn()` returning `None` (the constructor
returns right after the defaults, line 124-125, issuing no query);
`prelimOk = false` models an exception in the fqdn/base-dn/context phase
(lines 129-153), caught by the outer handler before any metric was
assigned.  Otherwise the metric-collection region runs. -/
def server_init (connected : Bool) (prelimOk : Bool) (env : Env) : ServerState :=
  if connected = false then initState
  else if prelimOk = false then initState
  else collect env

/-- The ordered check table of `ConsistencyChecker.__init__` (main.py lines
75-95): metric key and display name. -/
def checksList : List (String × String) :=
  [("users", "Active Users"), ("susers", "Stage Users"),
   ("pusers", "Preserved Users"), ("hosts", "Hosts"),
   ("services", "Services"), ("ugroups", "User Groups"),
   ("hgroups", "Host Groups"), ("ngroups", "Netgroups"),
   ("hbac", "HBAC Rules"), ("sudo", "SUDO Rules"),
   ("zones", "DNS Zones"), ("certs", "Certificates"),
   ("conflicts", "LDAP Conflicts"), ("ghosts", "Ghost Replicas"),
   ("bind", "Anonymous BIND"), ("msdcs", "Microsoft ADTrust"),
   ("replicas", "Replication Status")]

/-- Python `getattr(server, check)` for the 17 check attributes. -/
def get_attr (s : ServerState) (check : String) : Value :=
  match check with
  | "users" => s.users
  | "susers" => s.susers
  | "pusers" => s.pusers
  | "hosts" => s.hosts
  | "services" => s.services
  | "ugroups" => s.ugroups
  | "hgroups" => s.hgroups
  | "ngroups" => s.ngroups
  | "hbac" => s.hbac
  | "sudo" => s.sudo
  | "zones" => s.zones
  | "certs" => s.certs
  | "conflicts" => s.conflicts
  | "ghosts" => s.ghosts
  | "bind" => s.bind
  | "msdcs" => s.msdcs
  | "replicas" => s.replicas
  | _ => Value.none

/-- `ConsistencyChecker.is_consistent` (main.py lines 97-145).  `servers` is
the ordered server collection held by the checker, `check_results` the list
the callers build as `[getattr(server, check) for server in servers]`.
Empty `check_results` are never consistent; `conflicts` and `ghosts`
require every server's count to equal the first one and the first to be 0;
`replicas` requires every `healthy_agreements` flag to equal the first one
and the first to be true; every other check requires all `check_results`
equal to the first with no `None` among them.  The result is `Option.none`
when the Python code would raise `IndexError` (`conflicts[0]` on an empty
server collection) — unreachable in the class, whose constructor rejects an
empty server collection. -/
def is_consistent (servers : List ServerState) (check : String)
    (check_results : List Value) : Option Bool :=
  if check_results.isEmpty then some false
  else if check = "conflicts" then
    match servers.map (fun s => s.conflicts) with
    | [] => Option.none
    | c0 :: rest =>
      some (((c0 :: rest).count c0 == (c0 :: rest).length)
            && (c0 == Value.int 0))
  else if check = "ghosts" then
    match servers.map (fun s => s.ghosts) with
    | [] => Option.none
    | g0 :: rest =>
      some (((g0 :: rest).count g0 == (g0 :: rest).length)
            && (g0 == Value.int 0))
  else if check = "replicas" then
    match servers.map (fun s => s.healthy_agreements) with
    | [] => Option.none
    | h0 :: rest =>
      some (((h0 :: rest).count h0 == (h0 :: rest).length) && h0)
  else
    match check_results with
    | [] => Option.none
    | r0 :: rest =>
      some (((r0 :: rest).count r0 == (r0 :: rest).length)
            && !((r0 :: rest).contains Value.none))

/-- One check of the summary loop of
`ConsistencyChecker.get_structured_data` (main.py lines 235-252): evaluate
`is_consistent` on the per-server values of the check and bump exactly one
of the two counters `(consistent_checks, inconsistent_checks)`. -/
def summaryStep (servers : List ServerState) (acc : Nat × Nat)
    (ck : String × String) : Option (Nat × Nat) :=
  match is_consistent servers ck.1 (servers.map (fun s => get_attr s ck.1)) with
  | Option.none => Option.none
  | some b => some (if b then (acc.1 + 1, acc.2) else (acc.1, acc.2 + 1))

/-- The summary counters of `get_structured_data` (main.py lines 219-252):
fold the summary loop over the whole check table starting from `(0, 0)`. -/
def summaryCounts (servers : List ServerState) : Option (Nat × Nat) :=
  checksList.foldlM (summaryStep servers) (0, 0)

/-- `summary.total_checks` of `get_structured_data` (main.py line 220):
`len(self.checks)`. -/
def total_checks : Nat :=
  checksList.length

instance {ε α : Type} [DecidableEq ε] [DecidableEq α] :
    DecidableEq (Except ε α) := fun x y =>
  match x, y with
  | .error a, .error b =>
    if h : a = b then isTrue (by rw [h]) else isFalse (by intro hc; injection hc; contradiction)
  | .ok a, .ok b =>
    if h : a = b then isTrue (by rw [h]) else isFalse (by intro hc; injection hc; contradiction)
  | .error _, .ok _ => isFalse (by intro hc; injection hc)
  | .ok _, .error _ => isFalse (by intro hc; injection hc)

/-- Three demonstration servers that differ only in their conflict and
ghost counts. -/
def zeroServer : ServerState :=
  { initState with conflicts := Value.int 0, ghosts := Value.int 0 }

/-- A server reporting two conflicts and two ghost replicas. -/
def twoServer : ServerState :=
  { initState with conflicts := Value.int 2, ghosts := Value.int 2 }

/-- A server reporting three conflicts and three ghost replicas. -/
def threeServer : ServerState :=
  { initState with conflicts := Value.int 3, ghosts := Value.int 3 }

/-- A healthy server whose replication status text names one peer. -/
def healthyA : ServerState :=
  { initState with replicas := Value.str "ipa02 0",
                   healthy_agreements := true }

/-- A healthy server whose replication status text names two peers, so its
text differs from `healthyA`'s. -/
def healthyB : ServerState :=
  { initState with replicas := Value.str "ipa01 0\nipa03 18",
                   healthy_agreements := true }

/-- An unhealthy server with the same status text as `healthyA`. -/
def sickC : ServerState :=
  { initState with replicas := Value.str "ipa02 0",
                   healthy_agreements := false }

/-- The anonymous-bind rule as the claim words it, for comparison with the
source's `anon_bind`: normalise the decoded value to uppercase first and
return that uppercase value when it is one of ON, OFF, ROOTDSE. -/
def anon_bind_claimed (o : SearchOutcome) : Except Unit String :=
  match o with
  | .referral => .error ()
  | .failed => .ok "ERROR"
  | .results [] => .ok "ERROR"
  | .results (e :: _) =>
    match lookupAttr e.attrs "nsslapd-allow-anonymous-access" with
    | Option.none => .ok "ERROR"
    | some [] => .error ()
    | some (v :: _) =>
      let u := pyUpper v
      if u = "ON" ∨ u = "OFF" ∨ u = "ROOTDSE" then .ok u
      else .ok "ERROR"

/-- The health contribution of one agreement entry to the loop of
`_replication_agreements`: entries lacking either attribute are skipped and
leave the flag alone; otherwise the normalised status must be "0" or
"18". -/
def entryHealthy (e : Entry) : Bool :=
  match lookupAttr e.attrs "nsDS5ReplicaHost",
        lookupAttr e.attrs "nsds5replicaLastUpdateStatus" with
  | some (_ :: _), some (s0 :: _) =>
    (normalize_status s0 == "0") || (normalize_status s0 == "18")
  | _, _ => true

/-- A replication agreement entry whose status token normalises to "5". -/
def agreementEntryBad : Entry :=
  ⟨"cn=meTo1", [("nsDS5ReplicaHost", ["ipa02.example.com"]),
     ("nsds5replicaLastUpdateStatus",
      ["Error (5) incremental update failed"])]⟩

/-- A replication agreement entry whose status token normalises to "0". -/
def agreementEntryGood : Entry :=
  ⟨"cn=meTo2", [("nsDS5ReplicaHost", ["ipa03.example.com"]),
     ("nsds5replicaLastUpdateStatus",
      ["Error (0) Replica acquired successfully"])]⟩

/-- An environment whose every LDAP query fails benignly (`_search`
returning `False`). -/
def failedEnv : Env :=
  { domain := "example.com", users := .failed, susers := .failed,
    pusers := .failed, hosts := .failed, services := .failed,
    ugroups := .failed, hgroups := .failed, ngroups := .failed,
    hbac := .failed, «sudo» := .failed, zones := .failed, certs := .failed,
    conflicts := .failed, ghosts := .failed, bind := .failed,
    msdcs := false, replicas := .failed }

/-- An environment where the sudo-rules query is redirected and every
other query fails benignly. -/
def sudoRedirectEnv : Env :=
  { failedEnv with «sudo» := .referral }

/-- An environment where the users query decodes to a real value, the
DNS-zones query is redirected, and the certificate query would decode to
two entries. -/
def zonesRedirectEnv : Env :=
  { failedEnv with
    users := .results [⟨"cn=users", [("numSubordinates", ["100"])]⟩],
    zones := .referral,
    certs := .results [⟨"cn=c1", []⟩, ⟨"cn=c2", []⟩] }

/-- A server reporting exactly one LDAP conflict. -/
def oneConflictServer : ServerState :=
  { initState with conflicts := Value.int 1, ghosts := Value.int 0 }

/-- Python's `l.count(l[0]) == len(l) and l[0] == x` idiom on a non-empty
list says exactly that every element is `x`. -/
theorem count_head_and_head_eq {α : Type} [DecidableEq α] (a x : α) (l : List α) :
    (((a :: l).count a == (a :: l).length) && (a == x)) = true
      ↔ ∀ y ∈ a :: l, y = x := by
  rw [Bool.and_eq_true, beq_iff_eq, beq_iff_eq, List.count_eq_length]
  constructor
  · rintro ⟨hall, rfl⟩ y hy
    exact (hall y hy).symm
  · intro hx
    have ha : a = x := hx a (List.mem_cons_self a l)
    exact ⟨fun b hb => ha.trans (hx b hb).symm, ha⟩

/-- Every element of a mapped cons list equals `x` iff `f` sends every
element of the original list to `x`. -/
theorem forall_map_eq_iff {α β : Type} (f : α → β) (s0 : α) (rest : List α)
    (x : β) :
    (∀ y ∈ (s0 :: rest).map f, y = x) ↔ ∀ s ∈ s0 :: rest, f s = x := by
  simp

/-- The reduced form of the conflicts/ghosts branches: all-equal-to-head
plus head-is-x says head is x and every mapped element is x. -/
theorem count_map_head_iff {β : Type} [DecidableEq β]
    (f : ServerState → β) (x : β)
    (s0 : ServerState) (rest : List ServerState) :
    (List.count (f s0) (rest.map f) = rest.length ∧ f s0 = x)
      ↔ (f s0 = x ∧ ∀ a ∈ rest, f a = x) := by
  rw [show rest.length = (rest.map f).length by simp, List.count_eq_length]
  constructor
  · rintro ⟨hall, h0⟩
    refine ⟨h0, fun a ha => ?_⟩
    rw [← hall (f a) (List.mem_map_of_mem f ha)]
    exact h0
  · rintro ⟨h0, hall⟩
    refine ⟨fun b hb => ?_, h0⟩
    obtain ⟨a, ha, rfl⟩ := List.mem_map.mp hb
    rw [h0, hall a ha]

/-- C1: for the metric keys `conflicts` and `ghosts`, `is_consistent` (with
the per-server value lists its callers pass) returns true iff every
server's value for that metric is exactly 0 — so equal non-zero counts are
still inconsistent. -/
theorem claim_C1 (servers : List ServerState) (h : servers ≠ []) :
    (is_consistent servers "conflicts"
        (servers.map (fun s => get_attr s "conflicts")) = some true
      ↔ ∀ s ∈ servers, s.conflicts = Value.int 0)
  ∧ (is_consistent servers "ghosts"
        (servers.map (fun s => get_attr s "ghosts")) = some true
      ↔ ∀ s ∈ servers, s.ghosts = Value.int 0) := by
  obtain ⟨s0, rest, rfl⟩ := List.exists_cons_of_ne_nil h
  constructor
  · simp [is_consistent, get_attr]
    exact count_map_head_iff (fun s => s.conflicts) (Value.int 0) s0 rest
  · simp [is_consistent, get_attr]
    exact count_map_head_iff (fun s => s.ghosts) (Value.int 0) s0 rest

/-- Witness for C1 at three concrete servers, together with the claim's
examples: counts [0,0,0] are consistent, [0,2,0] and the equal-but-nonzero
[3,3,3] are not. -/
theorem claim_C1_witness :
    ((is_consistent [zeroServer, zeroServer, zeroServer] "conflicts"
         ([zeroServer, zeroServer, zeroServer].map
           (fun s => get_attr s "conflicts")) = some true
       ↔ ∀ s ∈ [zeroServer, zeroServer, zeroServer],
           s.conflicts = Value.int 0)
     ∧ (is_consistent [zeroServer, zeroServer, zeroServer] "ghosts"
         ([zeroServer, zeroServer, zeroServer].map
           (fun s => get_attr s "ghosts")) = some true
       ↔ ∀ s ∈ [zeroServer, zeroServer, zeroServer],
           s.ghosts = Value.int 0))
  ∧ is_consistent [zeroServer, zeroServer, zeroServer] "conflicts"
      ([zeroServer, zeroServer, zeroServer].map
        (fun s => get_attr s "conflicts")) = some true
  ∧ is_consistent [zeroServer, twoServer, zeroServer] "conflicts"
      ([zeroServer, twoServer, zeroServer].map
        (fun s => get_attr s "conflicts")) = some false
  ∧ is_consistent [threeServer, threeServer, threeServer] "conflicts"
      ([threeServer, threeServer, threeServer].map
        (fun s => get_attr s "conflicts")) = some false :=
  ⟨claim_C1 [zeroServer, zeroServer, zeroServer] (by decide),
   by decide, by decide, by decide⟩

/-- C2: for every metric key outside the three special cases,
`is_consistent` returns true iff the per-server value list is non-empty,
all its values are identical, and none of them is the `None` sentinel; in
particular any non-sentinel value repeated n ≥ 1 times is consistent and
the empty list is not. -/
theorem claim_C2 (servers : List ServerState) (check : String)
    (h1 : check ≠ "conflicts") (h2 : check ≠ "ghosts")
    (h3 : check ≠ "replicas") :
    (∀ vals : List Value, is_consistent servers check vals = some true
       ↔ (vals ≠ [] ∧ (∀ v ∈ vals, ∀ w ∈ vals, v = w)
           ∧ Value.none ∉ vals))
  ∧ (∀ (x : Value) (n : Nat), x ≠ Value.none → 1 ≤ n →
       is_consistent servers check (List.replicate n x) = some true)
  ∧ is_consistent servers check [] = some false := by
  have main : ∀ vals : List Value, is_consistent servers check vals = some true
       ↔ (vals ≠ [] ∧ (∀ v ∈ vals, ∀ w ∈ vals, v = w)
           ∧ Value.none ∉ vals) := by
    intro vals
    match vals with
    | [] => simp [is_consistent]
    | r0 :: rest =>
      simp [is_consistent, h1, h2, h3, List.count_eq_length]
      intro hne hnone hall a ha
      refine ⟨(hall a ha).symm, fun b hb => ?_⟩
      rw [← hall a ha]
      exact hall b hb
  refine ⟨main, ?_, by simp [is_consistent]⟩
  intro x n hx hn
  rw [main]
  obtain ⟨m, rfl⟩ : ∃ m, n = m + 1 := ⟨n - 1, by omega⟩
  refine ⟨by simp, ?_, ?_⟩
  · intro v hv w hw
    rw [List.eq_of_mem_replicate hv, List.eq_of_mem_replicate hw]
  · intro hmem
    exact hx (List.eq_of_mem_replicate hmem).symm

/-- Witness for C2: the default rule instantiated at the `users` key with a
concrete server collection. -/
theorem claim_C2_witness :
    (∀ vals : List Value, is_consistent [zeroServer] "users" vals = some true
       ↔ (vals ≠ [] ∧ (∀ v ∈ vals, ∀ w ∈ vals, v = w)
           ∧ Value.none ∉ vals))
  ∧ (∀ (x : Value) (n : Nat), x ≠ Value.none → 1 ≤ n →
       is_consistent [zeroServer] "users" (List.replicate n x) = some true)
  ∧ is_consistent [zeroServer] "users" [] = some false :=
  claim_C2 [zeroServer] "users" (by decide) (by decide) (by decide)

/-- C3: for the `replicas` metric, `is_consistent` depends only on each
server's `healthy_agreements` boolean (the per-server status texts `vals`
are arbitrary as long as the caller-built list is non-empty) and holds iff
every server's boolean is true. -/
theorem claim_C3 (servers : List ServerState) (h : servers ≠ [])
    (vals : List Value) (hv : vals ≠ []) :
    is_consistent servers "replicas" vals = some true
      ↔ ∀ s ∈ servers, s.healthy_agreements = true := by
  obtain ⟨s0, rest, rfl⟩ := List.exists_cons_of_ne_nil h
  obtain ⟨v0, vrest, rfl⟩ := List.exists_cons_of_ne_nil hv
  simp [is_consistent]
  exact count_map_head_iff (fun s => s.healthy_agreements) true s0 rest

/-- Witness for C3: two servers with different status text but both
healthy are consistent; identical text with one unhealthy server is not. -/
theorem claim_C3_witness :
    (is_consistent [healthyA, healthyB] "replicas"
        ([healthyA, healthyB].map (fun s => get_attr s "replicas"))
          = some true
      ↔ ∀ s ∈ [healthyA, healthyB], s.healthy_agreements = true)
  ∧ is_consistent [healthyA, healthyB] "replicas"
      ([healthyA, healthyB].map (fun s => get_attr s "replicas"))
        = some true
  ∧ is_consistent [healthyA, sickC] "replicas"
      ([healthyA, sickC].map (fun s => get_attr s "replicas"))
        = some false :=
  ⟨claim_C3 [healthyA, healthyB] (by decide)
      ([healthyA, healthyB].map (fun s => get_attr s "replicas")) (by decide),
   by decide, by decide⟩

/-- Counterexample to C6: on the attribute value "ON" — whose uppercase
normalisation "ON" is in the accepted set, so the claim demands the answer
"ON" — the source code answers "ERROR", because it compares the raw value
against the lowercase spellings before uppercasing. -/
theorem claim_C6_counterexample :
    anon_bind (.results [⟨"cn=config",
        [("nsslapd-allow-anonymous-access", ["ON"])]⟩]) = .ok "ERROR"
  ∧ anon_bind_claimed (.results [⟨"cn=config",
        [("nsslapd-allow-anonymous-access", ["ON"])]⟩]) = .ok "ON"
  ∧ Except.ok (ε := Unit) "ERROR" ≠ .ok "ON" := by
  refine ⟨by decide, by decide, by decide⟩

/-- C6 (amended): the collector accepts the decoded attribute value only
when it is exactly the lowercase "on", "off" or "rootdse", returning it
uppercased; any other value — uppercase or mixed-case spellings included —
as well as an absent attribute, an empty result or a failed search yields
"ERROR". -/
theorem claim_C6_amended (dn v : String) (more : List String)
    (others : List Entry) :
    anon_bind .failed = .ok "ERROR"
  ∧ anon_bind (.results []) = .ok "ERROR"
  ∧ anon_bind (.results (⟨dn, []⟩ :: others)) = .ok "ERROR"
  ∧ anon_bind (.results
        (⟨dn, [("nsslapd-allow-anonymous-access", v :: more)]⟩ :: others))
      = .ok (if v = "on" ∨ v = "off" ∨ v = "rootdse" then pyUpper v
             else "ERROR")
  ∧ pyUpper "on" = "ON" ∧ pyUpper "off" = "OFF"
  ∧ pyUpper "rootdse" = "ROOTDSE" := by
  refine ⟨rfl, rfl, by simp [anon_bind, lookupAttr], ?_,
    by decide, by decide, by decide⟩
  by_cases hv : v = "on" ∨ v = "off" ∨ v = "rootdse" <;>
    simp [anon_bind, lookupAttr, hv]

/-- C7: ghost-replica detection counts exactly the sub-values of the
`nscpentrywsi` attribute of the first returned tombstone entry whose text
contains "replica " but not "ldap"; later entries are ignored, and the
claim's two examples behave as stated. -/
theorem claim_C7 (dn : String) (vals : List String) (others : List Entry) :
    ghost_replicas (.results (⟨dn, [("nscpentrywsi", vals)]⟩ :: others))
      = .ok ((vals.filter (fun v =>
          strContains v "replica " && !(strContains v "ldap"))).length)
  ∧ (strContains "replica ldap://server1" "replica "
      && !(strContains "replica ldap://server1" "ldap")) = false
  ∧ (strContains "replica foo-bar" "replica "
      && !(strContains "replica foo-bar" "ldap")) = true := by
  refine ⟨?_, by decide, by decide⟩
  simp [ghost_replicas, lookupAttr, List.countP_eq_length_filter]

/-- The monadic fold of the agreement loop clears the healthy flag exactly
when some processed entry is unhealthy: whenever it completes without an
exception the final flag is the initial one conjoined with `entryHealthy`
over all entries. -/
theorem agreement_fold (domain : String) (entries : List Entry) :
    ∀ (m : List String) (b : Bool) (res : List String × Bool),
      List.foldlM (agreementStep domain) (m, b) entries = Except.ok res →
      res.2 = (b && entries.all entryHealthy) := by
  induction entries with
  | nil =>
    intro m b res hres
    have h2 : (Except.ok (m, b) : Except Unit (List String × Bool))
        = .ok res := hres
    injection h2 with h2
    rw [← h2]
    simp
  | cons e rest ih =>
    intro m b res hres
    rw [List.foldlM_cons] at hres
    rcases h1 : lookupAttr e.attrs "nsDS5ReplicaHost" with _ | hv
    case none =>
      have hstep : agreementStep domain (m, b) e = .ok (m, b) := by
        rcases h2 : lookupAttr e.attrs "nsds5replicaLastUpdateStatus" with _ | sv
        · simp [agreementStep, h1, h2]
        · rcases sv with _ | ⟨s0, srest⟩ <;> simp [agreementStep, h1, h2]
      rw [hstep] at hres
      rw [ih m b res hres]
      simp [List.all_cons, entryHealthy, h1]
    case some =>
      rcases hv with _ | ⟨h0, hrest⟩
      · rcases h2 : lookupAttr e.attrs "nsds5replicaLastUpdateStatus" with _ | sv
        · have hstep : agreementStep domain (m, b) e = .ok (m, b) := by
            simp [agreementStep, h1, h2]
          rw [hstep] at hres
          rw [ih m b res hres]
          simp [List.all_cons, entryHealthy, h1, h2]
        · have hstep : agreementStep domain (m, b) e = .error () := by
            simp [agreementStep, h1, h2]
          rw [hstep] at hres
          exact Except.noConfusion
            (hres : (Except.error () : Except Unit (List String × Bool))
              = .ok res)
      · rcases h2 : lookupAttr e.attrs "nsds5replicaLastUpdateStatus" with _ | sv
        · have hstep : agreementStep domain (m, b) e = .ok (m, b) := by
            simp [agreementStep, h1, h2]
          rw [hstep] at hres
          rw [ih m b res hres]
          simp [List.all_cons, entryHealthy, h1, h2]
        · rcases sv with _ | ⟨s0, srest⟩
          · have hstep : agreementStep domain (m, b) e = .error () := by
              simp [agreementStep, h1, h2]
            rw [hstep] at hres
            exact Except.noConfusion
              (hres : (Except.error () : Except Unit (List String × Bool))
                = .ok res)
          · have hstep : agreementStep domain (m, b) e =
                .ok (m ++ [String.mk (pyReplace ("." ++ domain).toList []
                        h0.toList) ++ " " ++ normalize_status s0],
                     if normalize_status s0 = "0" ∨ normalize_status s0 = "18"
                     then b else false) := by
              simp [agreementStep, h1, h2]
            rw [hstep] at hres
            rw [ih _ _ res hres]
            simp only [List.all_cons, entryHealthy, h1, h2]
            by_cases hs : normalize_status s0 = "0" ∨ normalize_status s0 = "18"
            · rw [if_pos hs]
              have hbeq : ((normalize_status s0 == "0")
                  || (normalize_status s0 == "18")) = true := by
                rcases hs with hs | hs <;> simp [hs]
              rw [hbeq]
              simp
            · rw [if_neg hs]
              push_neg at hs
              have hbeq : ((normalize_status s0 == "0")
                  || (normalize_status s0 == "18")) = false := by
                simp [hs.1, hs.2]
              rw [hbeq]
              simp

/-- C8: the last-update-status text is normalised by dropping "Error ",
taking the token before the first space and stripping surrounding
parentheses — the claim's example "Error (5) incremental update failed"
gives the token "5", which is unhealthy; whenever the collector returns on
a non-empty entry list, its healthy flag says that all agreements carrying
both attributes are healthy (token "0" or "18"); and a search returning no
entries (or failing) yields the sentinel text with healthy false. -/
theorem claim_C8 (domain : String) (entries : List Entry)
    (hne : entries ≠ []) (res : String × Bool)
    (h : replication_agreements domain (.results entries) = .ok res) :
    normalize_status "Error (5) incremental update failed" = "5"
  ∧ ((normalize_status "Error (5) incremental update failed" == "0")
      || (normalize_status "Error (5) incremental update failed" == "18"))
        = false
  ∧ res.2 = entries.all entryHealthy
  ∧ replication_agreements domain (.results []) =
      .ok ("No replication agreements found", false)
  ∧ replication_agreements domain .failed =
      .ok ("No replication agreements found", false) := by
  refine ⟨by decide, by decide, ?_, rfl, rfl⟩
  obtain ⟨e, rest, rfl⟩ := List.exists_cons_of_ne_nil hne
  simp only [replication_agreements] at h
  cases hf : List.foldlM (agreementStep domain) ([], true) (e :: rest) with
  | error u =>
    rw [hf] at h
    exact Except.noConfusion
      (h : (Except.error u : Except Unit (String × Bool)) = .ok res)
  | ok acc =>
    rw [hf] at h
    have h2 : (Except.ok
        (if acc.1.isEmpty then "No replication agreements found"
         else String.intercalate "\n" acc.1, acc.2)
        : Except Unit (String × Bool)) = .ok res := h
    injection h2 with h3
    rw [← h3]
    rw [show (if acc.1.isEmpty then "No replication agreements found"
         else String.intercalate "\n" acc.1, acc.2).2 = acc.2 from rfl]
    rw [agreement_fold domain (e :: rest) [] true acc hf]
    simp

/-- Witness for C8 on a concrete pair of agreements, one unhealthy: the
collector reports both normalised tokens and an unhealthy overall flag. -/
theorem claim_C8_witness :
    (normalize_status "Error (5) incremental update failed" = "5"
  ∧ ((normalize_status "Error (5) incremental update failed" == "0")
      || (normalize_status "Error (5) incremental update failed" == "18"))
        = false
  ∧ (("ipa02 5\nipa03 0", false) : String × Bool).2 =
      [agreementEntryBad, agreementEntryGood].all entryHealthy
  ∧ replication_agreements "example.com" (.results []) =
      .ok ("No replication agreements found", false)
  ∧ replication_agreements "example.com" .failed =
      .ok ("No replication agreements found", false))
  ∧ replication_agreements "example.com"
      (.results [agreementEntryBad, agreementEntryGood]) =
        .ok ("ipa02 5\nipa03 0", false) :=
  ⟨claim_C8 "example.com" [agreementEntryBad, agreementEntryGood]
     (by decide) ("ipa02 5\nipa03 0", false) (by decide), by decide⟩

/-- Entries lacking the replica-host attribute or the last-update-status
attribute are skipped by the agreement loop without touching the
accumulator. -/
theorem agreement_fold_skip (domain : String) (entries : List Entry)
    (hmiss : ∀ e ∈ entries,
      lookupAttr e.attrs "nsDS5ReplicaHost" = Option.none
      ∨ lookupAttr e.attrs "nsds5replicaLastUpdateStatus" = Option.none) :
    ∀ acc : List String × Bool,
      List.foldlM (agreementStep domain) acc entries = Except.ok acc := by
  induction entries with
  | nil => intro acc; rfl
  | cons e rest ih =>
    intro acc
    have hstep : agreementStep domain acc e = .ok acc := by
      rcases hmiss e (List.mem_cons_self e rest) with h | h
      · rcases h2 : lookupAttr e.attrs "nsds5replicaLastUpdateStatus"
          with _ | sv
        · simp [agreementStep, h, h2]
        · rcases sv with _ | ⟨s0, srest⟩ <;> simp [agreementStep, h, h2]
      · rcases h1 : lookupAttr e.attrs "nsDS5ReplicaHost" with _ | hv
        · simp [agreementStep, h, h1]
        · rcases hv with _ | ⟨h0, hrest⟩ <;> simp [agreementStep, h, h1]
    rw [List.foldlM_cons, hstep]
    exact ih (fun x hx => hmiss x (List.mem_cons_of_mem e hx)) acc

/-- C10: when the agreement search returns entries but none of them carries
both the replica-host and the last-update-status attribute, every entry is
skipped, so the collector returns the sentinel text paired with
`healthy = true` (the flag keeps its initial value). -/
theorem claim_C10 (domain : String) (entries : List Entry)
    (hne : entries ≠ [])
    (hmiss : ∀ e ∈ entries,
      lookupAttr e.attrs "nsDS5ReplicaHost" = Option.none
      ∨ lookupAttr e.attrs "nsds5replicaLastUpdateStatus" = Option.none) :
    replication_agreements domain (.results entries) =
      .ok ("No replication agreements found", true) := by
  obtain ⟨e, rest, rfl⟩ := List.exists_cons_of_ne_nil hne
  simp only [replication_agreements]
  rw [agreement_fold_skip domain (e :: rest) hmiss ([], true)]
  rfl

/-- Witness for C10: one entry with an unrelated attribute only. -/
theorem claim_C10_witness :
    replication_agreements "example.com"
      (.results [⟨"cn=x", [("objectClass", ["top"])]⟩]) =
        .ok ("No replication agreements found", true) :=
  claim_C10 "example.com" [⟨"cn=x", [("objectClass", ["top"])]⟩]
    (by decide) (by decide)

/-- Counterexample to C5: when the initial connection fails, 16 metrics are
indeed left at the `None` sentinel, but `hbac` is left at `0` — the source
deliberately initialises it to `0` instead of `None` — so not every one of
the 17 metrics is the sentinel. -/
theorem claim_C5_counterexample :
    (server_init false true failedEnv).hbac = Value.int 0
  ∧ Value.int 0 ≠ Value.none
  ∧ (server_init false true failedEnv).users = Value.none := by
  refine ⟨rfl, by decide, rfl⟩

/-- C5 (amended): if the initial connection fails, the constructor returns
immediately — the result ignores every query outcome (no further queries
attempted) — with all metrics at the `None` sentinel except `hbac`, which
keeps its deliberate default `0`, and `healthy_agreements` false. -/
theorem claim_C5_amended (p : Bool) (env env2 : Env) :
    server_init false p env = server_init false p env2
  ∧ (server_init false p env).users = Value.none
  ∧ (server_init false p env).susers = Value.none
  ∧ (server_init false p env).pusers = Value.none
  ∧ (server_init false p env).hosts = Value.none
  ∧ (server_init false p env).services = Value.none
  ∧ (server_init false p env).ugroups = Value.none
  ∧ (server_init false p env).hgroups = Value.none
  ∧ (server_init false p env).ngroups = Value.none
  ∧ (server_init false p env).sudo = Value.none
  ∧ (server_init false p env).zones = Value.none
  ∧ (server_init false p env).certs = Value.none
  ∧ (server_init false p env).conflicts = Value.none
  ∧ (server_init false p env).ghosts = Value.none
  ∧ (server_init false p env).bind = Value.none
  ∧ (server_init false p env).msdcs = Value.none
  ∧ (server_init false p env).replicas = Value.none
  ∧ (server_init false p env).hbac = Value.int 0
  ∧ (server_init false p env).healthy_agreements = false :=
  ⟨rfl, rfl, rfl, rfl, rfl, rfl, rfl, rfl, rfl, rfl, rfl, rfl, rfl, rfl,
   rfl, rfl, rfl, rfl, rfl⟩

/-- Counterexample to C4: a redirect during the DNS-zones query (a metric
with no per-metric exception handling) does abort the rest of that
server's collection — the certificate query would have decoded to 2, yet
`certs` is left at the `None` sentinel, while the earlier `users` metric
was collected normally. -/
theorem claim_C4_counterexample :
    count_len zonesRedirectEnv.zones = .error ()
  ∧ count_len zonesRedirectEnv.certs = .ok 2
  ∧ (server_init true true zonesRedirectEnv).certs = Value.none
  ∧ (server_init true true zonesRedirectEnv).users = Value.str "100" := by
  refine ⟨rfl, rfl, rfl, rfl⟩

/-- C4 (amended): redirect isolation is per-metric only for the hbac and
sudo queries, and this theorem covers every case.  Parts 1-2: a redirect
raised during the sudo (resp. hbac) query is caught by its inner handler
and converted to that metric's default 0, while every other metric of the
server keeps its normally decoded value.  Parts 3-16: a redirect during
any of the fourteen metric queries without per-metric handling (users,
susers, pusers, hosts, services, ugroups, hgroups, ngroups, zones, certs,
conflicts, ghosts, bind, replicas; the msdcs check issues no LDAP query
and cannot raise) ends that server's collection — the metrics collected
before it keep their decoded values, while that metric and every one
queried after it stay at their initial defaults. -/
theorem claim_C4_amended :
    (∀ (env : Env) (vu : String) (vsu : String) (vpu : String) (nh : Nat) (ns : Nat) (ng : Nat) (vhg : String) (nn : Nat) (nhb : Nat) (nz : Nat) (nc : Nat) (ncf : Nat) (ngh : Nat) (vb : String) (vr : String) (hr : Bool),
      count_users env.users = .ok vu →
      count_users env.susers = .ok vsu →
      count_users env.pusers = .ok vpu →
      count_len env.hosts = .ok nh →
      count_len env.services = .ok ns →
      count_len env.ugroups = .ok ng →
      count_hostgroups env.hgroups = .ok vhg →
      count_len env.ngroups = .ok nn →
      count_len env.hbac = .ok nhb →
      count_len env.sudo = .error () →
      count_len env.zones = .ok nz →
      count_len env.certs = .ok nc →
      count_len env.conflicts = .ok ncf →
      ghost_replicas env.ghosts = .ok ngh →
      anon_bind env.bind = .ok vb →
      replication_agreements env.domain env.replicas = .ok (vr, hr) →
      server_init true true env =
      { users := Value.str vu,
        susers := Value.str vsu,
        pusers := Value.str vpu,
        hosts := Value.int nh,
        services := Value.int ns,
        ugroups := Value.int ng,
        hgroups := Value.str vhg,
        ngroups := Value.int nn,
        hbac := Value.int nhb,
        «sudo» := Value.int 0,
        zones := Value.int nz,
        certs := Value.int nc,
        conflicts := Value.int ncf,
        ghosts := Value.int ngh,
        bind := Value.str vb,
        msdcs := Value.bool env.msdcs,
        replicas := Value.str vr,
        healthy_agreements := hr })
  ∧ (∀ (env : Env) (vu : String) (vsu : String) (vpu : String) (nh : Nat) (ns : Nat) (ng : Nat) (vhg : String) (nn : Nat) (nsd : Nat) (nz : Nat) (nc : Nat) (ncf : Nat) (ngh : Nat) (vb : String) (vr : String) (hr : Bool),
      count_users env.users = .ok vu →
      count_users env.susers = .ok vsu →
      count_users env.pusers = .ok vpu →
      count_len env.hosts = .ok nh →
      count_len env.services = .ok ns →
      count_len env.ugroups = .ok ng →
      count_hostgroups env.hgroups = .ok vhg →
      count_len env.ngroups = .ok nn →
      count_len env.hbac = .error () →
      count_len env.sudo = .ok nsd →
      count_len env.zones = .ok nz →
      count_len env.certs = .ok nc →
      count_len env.conflicts = .ok ncf →
      ghost_replicas env.ghosts = .ok ngh →
      anon_bind env.bind = .ok vb →
      replication_agreements env.domain env.replicas = .ok (vr, hr) →
      server_init true true env =
      { users := Value.str vu,
        susers := Value.str vsu,
        pusers := Value.str vpu,
        hosts := Value.int nh,
        services := Value.int ns,
        ugroups := Value.int ng,
        hgroups := Value.str vhg,
        ngroups := Value.int nn,
        hbac := Value.int 0,
        «sudo» := Value.int nsd,
        zones := Value.int nz,
        certs := Value.int nc,
        conflicts := Value.int ncf,
        ghosts := Value.int ngh,
        bind := Value.str vb,
        msdcs := Value.bool env.msdcs,
        replicas := Value.str vr,
        healthy_agreements := hr })
  ∧ (∀ (env : Env),
      count_users env.users = .error () →
      server_init true true env =
      initState)
  ∧ (∀ (env : Env) (vu : String),
      count_users env.users = .ok vu →
      count_users env.susers = .error () →
      server_init true true env =
      { initState with
        users := Value.str vu })
  ∧ (∀ (env : Env) (vu : String) (vsu : String),
      count_users env.users = .ok vu →
      count_users env.susers = .ok vsu →
      count_users env.pusers = .error () →
      server_init true true env =
      { initState with
        users := Value.str vu,
        susers := Value.str vsu })
  ∧ (∀ (env : Env) (vu : String) (vsu : String) (vpu : String),
      count_users env.users = .ok vu →
      count_users env.susers = .ok vsu →
      count_users env.pusers = .ok vpu →
      count_len env.hosts = .error () →
      server_init true true env =
      { initState with
        users := Value.str vu,
        susers := Value.str vsu,
        pusers := Value.str vpu })
  ∧ (∀ (env : Env) (vu : String) (vsu : String) (vpu : String) (nh : Nat),
      count_users env.users = .ok vu →
      count_users env.susers = .ok vsu →
      count_users env.pusers = .ok vpu →
      count_len env.hosts = .ok nh →
      count_len env.services = .error () →
      server_init true true env =
      { initState with
        users := Value.str vu,
        susers := Value.str vsu,
        pusers := Value.str vpu,
        hosts := Value.int nh })
  ∧ (∀ (env : Env) (vu : String) (vsu : String) (vpu : String) (nh : Nat) (ns : Nat),
      count_users env.users = .ok vu →
      count_users env.susers = .ok vsu →
      count_users env.pusers = .ok vpu →
      count_len env.hosts = .ok nh →
      count_len env.services = .ok ns →
      count_len env.ugroups = .error () →
      server_init true true env =
      { initState with
        users := Value.str vu,
        susers := Value.str vsu,
        pusers := Value.str vpu,
        hosts := Value.int nh,
        services := Value.int ns })
  ∧ (∀ (env : Env) (vu : String) (vsu : String) (vpu : String) (nh : Nat) (ns : Nat) (ng : Nat),
      count_users env.users = .ok vu →
      count_users env.susers = .ok vsu →
      count_users env.pusers = .ok vpu →
      count_len env.hosts = .ok nh →
      count_len env.services = .ok ns →
      count_len env.ugroups = .ok ng →
      count_hostgroups env.hgroups = .error () →
      server_init true true env =
      { initState with
        users := Value.str vu,
        susers := Value.str vsu,
        pusers := Value.str vpu,
        hosts := Value.int nh,
        services := Value.int ns,
        ugroups := Value.int ng })
  ∧ (∀ (env : Env) (vu : String) (vsu : String) (vpu : String) (nh : Nat) (ns : Nat) (ng : Nat) (vhg : String),
      count_users env.users = .ok vu →
      count_users env.susers = .ok vsu →
      count_users env.pusers = .ok vpu →
      count_len env.hosts = .ok nh →
      count_len env.services = .ok ns →
      count_len env.ugroups = .ok ng →
      count_hostgroups env.hgroups = .ok vhg →
      count_len env.ngroups = .error () →
      server_init true true env =
      { initState with
        users := Value.str vu,
        susers := Value.str vsu,
        pusers := Value.str vpu,
        hosts := Value.int nh,
        services := Value.int ns,
        ugroups := Value.int ng,
        hgroups := Value.str vhg })
  ∧ (∀ (env : Env) (vu : String) (vsu : String) (vpu : String) (nh : Nat) (ns : Nat) (ng : Nat) (vhg : String) (nn : Nat) (nhb : Nat) (nsd : Nat),
      count_users env.users = .ok vu →
      count_users env.susers = .ok vsu →
      count_users env.pusers = .ok vpu →
      count_len env.hosts = .ok nh →
      count_len env.services = .ok ns →
      count_len env.ugroups = .ok ng →
      count_hostgroups env.hgroups = .ok vhg →
      count_len env.ngroups = .ok nn →
      count_len env.hbac = .ok nhb →
      count_len env.sudo = .ok nsd →
      count_len env.zones = .error () →
      server_init true true env =
      { initState with
        users := Value.str vu,
        susers := Value.str vsu,
        pusers := Value.str vpu,
        hosts := Value.int nh,
        services := Value.int ns,
        ugroups := Value.int ng,
        hgroups := Value.str vhg,
        ngroups := Value.int nn,
        hbac := Value.int nhb,
        «sudo» := Value.int nsd })
  ∧ (∀ (env : Env) (vu : String) (vsu : String) (vpu : String) (nh : Nat) (ns : Nat) (ng : Nat) (vhg : String) (nn : Nat) (nhb : Nat) (nsd : Nat) (nz : Nat),
      count_users env.users = .ok vu →
      count_users env.susers = .ok vsu →
      count_users env.pusers = .ok vpu →
      count_len env.hosts = .ok nh →
      count_len env.services = .ok ns →
      count_len env.ugroups = .ok ng →
      count_hostgroups env.hgroups = .ok vhg →
      count_len env.ngroups = .ok nn →
      count_len env.hbac = .ok nhb →
      count_len env.sudo = .ok nsd →
      count_len env.zones = .ok nz →
      count_len env.certs = .error () →
      server_init true true env =
      { initState with
        users := Value.str vu,
        susers := Value.str vsu,
        pusers := Value.str vpu,
        hosts := Value.int nh,
        services := Value.int ns,
        ugroups := Value.int ng,
        hgroups := Value.str vhg,
        ngroups := Value.int nn,
        hbac := Value.int nhb,
        «sudo» := Value.int nsd,
        zones := Value.int nz })
  ∧ (∀ (env : Env) (vu : String) (vsu : String) (vpu : String) (nh : Nat) (ns : Nat) (ng : Nat) (vhg : String) (nn : Nat) (nhb : Nat) (nsd : Nat) (nz : Nat) (nc : Nat),
      count_users env.users = .ok vu →
      count_users env.susers = .ok vsu →
      count_users env.pusers = .ok vpu →
      count_len env.hosts = .ok nh →
      count_len env.services = .ok ns →
      count_len env.ugroups = .ok ng →
      count_hostgroups env.hgroups = .ok vhg →
      count_len env.ngroups = .ok nn →
      count_len env.hbac = .ok nhb →
      count_len env.sudo = .ok nsd →
      count_len env.zones = .ok nz →
      count_len env.certs = .ok nc →
      count_len env.conflicts = .error () →
      server_init true true env =
      { initState with
        users := Value.str vu,
        susers := Value.str vsu,
        pusers := Value.str vpu,
        hosts := Value.int nh,
        services := Value.int ns,
        ugroups := Value.int ng,
        hgroups := Value.str vhg,
        ngroups := Value.int nn,
        hbac := Value.int nhb,
        «sudo» := Value.int nsd,
        zones := Value.int nz,
        certs := Value.int nc })
  ∧ (∀ (env : Env) (vu : String) (vsu : String) (vpu : String) (nh : Nat) (ns : Nat) (ng : Nat) (vhg : String) (nn : Nat) (nhb : Nat) (nsd : Nat) (nz : Nat) (nc : Nat) (ncf : Nat),
      count_users env.users = .ok vu →
      count_users env.susers = .ok vsu →
      count_users env.pusers = .ok vpu →
      count_len env.hosts = .ok nh →
      count_len env.services = .ok ns →
      count_len env.ugroups = .ok ng →
      count_hostgroups env.hgroups = .ok vhg →
      count_len env.ngroups = .ok nn →
      count_len env.hbac = .ok nhb →
      count_len env.sudo = .ok nsd →
      count_len env.zones = .ok nz →
      count_len env.certs = .ok nc →
      count_len env.conflicts = .ok ncf →
      ghost_replicas env.ghosts = .error () →
      server_init true true env =
      { initState with
        users := Value.str vu,
        susers := Value.str vsu,
        pusers := Value.str vpu,
        hosts := Value.int nh,
        services := Value.int ns,
        ugroups := Value.int ng,
        hgroups := Value.str vhg,
        ngroups := Value.int nn,
        hbac := Value.int nhb,
        «sudo» := Value.int nsd,
        zones := Value.int nz,
        certs := Value.int nc,
        conflicts := Value.int ncf })
  ∧ (∀ (env : Env) (vu : String) (vsu : String) (vpu : String) (nh : Nat) (ns : Nat) (ng : Nat) (vhg : String) (nn : Nat) (nhb : Nat) (nsd : Nat) (nz : Nat) (nc : Nat) (ncf : Nat) (ngh : Nat),
      count_users env.users = .ok vu →
      count_users env.susers = .ok vsu →
      count_users env.pusers = .ok vpu →
      count_len env.hosts = .ok nh →
      count_len env.services = .ok ns →
      count_len env.ugroups = .ok ng →
      count_hostgroups env.hgroups = .ok vhg →
      count_len env.ngroups = .ok nn →
      count_len env.hbac = .ok nhb →
      count_len env.sudo = .ok nsd →
      count_len env.zones = .ok nz →
      count_len env.certs = .ok nc →
      count_len env.conflicts = .ok ncf →
      ghost_replicas env.ghosts = .ok ngh →
      anon_bind env.bind = .error () →
      server_init true true env =
      { initState with
        users := Value.str vu,
        susers := Value.str vsu,
        pusers := Value.str vpu,
        hosts := Value.int nh,
        services := Value.int ns,
        ugroups := Value.int ng,
        hgroups := Value.str vhg,
        ngroups := Value.int nn,
        hbac := Value.int nhb,
        «sudo» := Value.int nsd,
        zones := Value.int nz,
        certs := Value.int nc,
        conflicts := Value.int ncf,
        ghosts := Value.int ngh })
  ∧ (∀ (env : Env) (vu : String) (vsu : String) (vpu : String) (nh : Nat) (ns : Nat) (ng : Nat) (vhg : String) (nn : Nat) (nhb : Nat) (nsd : Nat) (nz : Nat) (nc : Nat) (ncf : Nat) (ngh : Nat) (vb : String),
      count_users env.users = .ok vu →
      count_users env.susers = .ok vsu →
      count_users env.pusers = .ok vpu →
      count_len env.hosts = .ok nh →
      count_len env.services = .ok ns →
      count_len env.ugroups = .ok ng →
      count_hostgroups env.hgroups = .ok vhg →
      count_len env.ngroups = .ok nn →
      count_len env.hbac = .ok nhb →
      count_len env.sudo = .ok nsd →
      count_len env.zones = .ok nz →
      count_len env.certs = .ok nc →
      count_len env.conflicts = .ok ncf →
      ghost_replicas env.ghosts = .ok ngh →
      anon_bind env.bind = .ok vb →
      replication_agreements env.domain env.replicas = .error () →
      server_init true true env =
      { initState with
        users := Value.str vu,
        susers := Value.str vsu,
        pusers := Value.str vpu,
        hosts := Value.int nh,
        services := Value.int ns,
        ugroups := Value.int ng,
        hgroups := Value.str vhg,
        ngroups := Value.int nn,
        hbac := Value.int nhb,
        «sudo» := Value.int nsd,
        zones := Value.int nz,
        certs := Value.int nc,
        conflicts := Value.int ncf,
        ghosts := Value.int ngh,
        bind := Value.str vb,
        msdcs := Value.bool env.msdcs }) := by
  refine ⟨?_, ?_, ?_, ?_, ?_, ?_, ?_, ?_, ?_, ?_, ?_, ?_, ?_, ?_, ?_, ?_⟩
  · intro env vu vsu vpu nh ns ng vhg nn nhb nz nc ncf ngh vb vr hr h1 h2 h3 h4 h5 h6 h7 h8 h9 h10 h11 h12 h13 h14 h15 h16
    show collect env = _
    simp only [collect, h1, h2, h3, h4, h5, h6, h7, h8, h9, h10, h11, h12, h13, h14, h15, h16]
    try rfl
  · intro env vu vsu vpu nh ns ng vhg nn nsd nz nc ncf ngh vb vr hr h1 h2 h3 h4 h5 h6 h7 h8 h9 h10 h11 h12 h13 h14 h15 h16
    show collect env = _
    simp only [collect, h1, h2, h3, h4, h5, h6, h7, h8, h9, h10, h11, h12, h13, h14, h15, h16]
    try rfl
  · intro env h1
    show collect env = _
    simp only [collect, h1]
    try rfl
  · intro env vu h1 h2
    show collect env = _
    simp only [collect, h1, h2]
    try rfl
  · intro env vu vsu h1 h2 h3
    show collect env = _
    simp only [collect, h1, h2, h3]
    try rfl
  · intro env vu vsu vpu h1 h2 h3 h4
    show collect env = _
    simp only [collect, h1, h2, h3, h4]
    try rfl
  · intro env vu vsu vpu nh h1 h2 h3 h4 h5
    show collect env = _
    simp only [collect, h1, h2, h3, h4, h5]
    try rfl
  · intro env vu vsu vpu nh ns h1 h2 h3 h4 h5 h6
    show collect env = _
    simp only [collect, h1, h2, h3, h4, h5, h6]
    try rfl
  · intro env vu vsu vpu nh ns ng h1 h2 h3 h4 h5 h6 h7
    show collect env = _
    simp only [collect, h1, h2, h3, h4, h5, h6, h7]
    try rfl
  · intro env vu vsu vpu nh ns ng vhg h1 h2 h3 h4 h5 h6 h7 h8
    show collect env = _
    simp only [collect, h1, h2, h3, h4, h5, h6, h7, h8]
    try rfl
  · intro env vu vsu vpu nh ns ng vhg nn nhb nsd h1 h2 h3 h4 h5 h6 h7 h8 h9 h10 h11
    show collect env = _
    simp only [collect, h1, h2, h3, h4, h5, h6, h7, h8, h9, h10, h11]
    try rfl
  · intro env vu vsu vpu nh ns ng vhg nn nhb nsd nz h1 h2 h3 h4 h5 h6 h7 h8 h9 h10 h11 h12
    show collect env = _
    simp only [collect, h1, h2, h3, h4, h5, h6, h7, h8, h9, h10, h11, h12]
    try rfl
  · intro env vu vsu vpu nh ns ng vhg nn nhb nsd nz nc h1 h2 h3 h4 h5 h6 h7 h8 h9 h10 h11 h12 h13
    show collect env = _
    simp only [collect, h1, h2, h3, h4, h5, h6, h7, h8, h9, h10, h11, h12, h13]
    try rfl
  · intro env vu vsu vpu nh ns ng vhg nn nhb nsd nz nc ncf h1 h2 h3 h4 h5 h6 h7 h8 h9 h10 h11 h12 h13 h14
    show collect env = _
    simp only [collect, h1, h2, h3, h4, h5, h6, h7, h8, h9, h10, h11, h12, h13, h14]
    try rfl
  · intro env vu vsu vpu nh ns ng vhg nn nhb nsd nz nc ncf ngh h1 h2 h3 h4 h5 h6 h7 h8 h9 h10 h11 h12 h13 h14 h15
    show collect env = _
    simp only [collect, h1, h2, h3, h4, h5, h6, h7, h8, h9, h10, h11, h12, h13, h14, h15]
    try rfl
  · intro env vu vsu vpu nh ns ng vhg nn nhb nsd nz nc ncf ngh vb h1 h2 h3 h4 h5 h6 h7 h8 h9 h10 h11 h12 h13 h14 h15 h16
    show collect env = _
    simp only [collect, h1, h2, h3, h4, h5, h6, h7, h8, h9, h10, h11, h12, h13, h14, h15, h16]
    try rfl

/-- Witness for the amended C4, exercising every part at concrete
environments built over `failedEnv`: a sudo (resp. hbac) redirect leaves
only that metric at its default 0, and a redirect during each of the
fourteen unprotected metric queries leaves that metric and every later
one at its initial default. -/
theorem claim_C4_amended_witness :
    server_init true true sudoRedirectEnv =
        { users := Value.str "0",
          susers := Value.str "0",
          pusers := Value.str "0",
          hosts := Value.int 0,
          services := Value.int 0,
          ugroups := Value.int 0,
          hgroups := Value.str "0",
          ngroups := Value.int 0,
          hbac := Value.int 0,
          «sudo» := Value.int 0,
          zones := Value.int 0,
          certs := Value.int 0,
          conflicts := Value.int 0,
          ghosts := Value.int 0,
          bind := Value.str "ERROR",
          msdcs := Value.bool false,
          replicas := Value.str "No replication agreements found",
          healthy_agreements := false }
  ∧ server_init true true { failedEnv with hbac := .referral } =
        { users := Value.str "0",
          susers := Value.str "0",
          pusers := Value.str "0",
          hosts := Value.int 0,
          services := Value.int 0,
          ugroups := Value.int 0,
          hgroups := Value.str "0",
          ngroups := Value.int 0,
          hbac := Value.int 0,
          «sudo» := Value.int 0,
          zones := Value.int 0,
          certs := Value.int 0,
          conflicts := Value.int 0,
          ghosts := Value.int 0,
          bind := Value.str "ERROR",
          msdcs := Value.bool false,
          replicas := Value.str "No replication agreements found",
          healthy_agreements := false }
  ∧ server_init true true { failedEnv with users := .referral } =
        initState
  ∧ server_init true true { failedEnv with susers := .referral } =
        { initState with
          users := Value.str "0" }
  ∧ server_init true true { failedEnv with pusers := .referral } =
        { initState with
          users := Value.str "0",
          susers := Value.str "0" }
  ∧ server_init true true { failedEnv with hosts := .referral } =
        { initState with
          users := Value.str "0",
          susers := Value.str "0",
          pusers := Value.str "0" }
  ∧ server_init true true { failedEnv with services := .referral } =
        { initState with
          users := Value.str "0",
          susers := Value.str "0",
          pusers := Value.str "0",
          hosts := Value.int 0 }
  ∧ server_init true true { failedEnv with ugroups := .referral } =
        { initState with
          users := Value.str "0",
          susers := Value.str "0",
          pusers := Value.str "0",
          hosts := Value.int 0,
          services := Value.int 0 }
  ∧ server_init true true { failedEnv with hgroups := .referral } =
        { initState with
          users := Value.str "0",
          susers := Value.str "0",
          pusers := Value.str "0",
          hosts := Value.int 0,
          services := Value.int 0,
          ugroups := Value.int 0 }
  ∧ server_init true true { failedEnv with ngroups := .referral } =
        { initState with
          users := Value.str "0",
          susers := Value.str "0",
          pusers := Value.str "0",
          hosts := Value.int 0,
          services := Value.int 0,
          ugroups := Value.int 0,
          hgroups := Value.str "0" }
  ∧ server_init true true { failedEnv with zones := .referral } =
        { initState with
          users := Value.str "0",
          susers := Value.str "0",
          pusers := Value.str "0",
          hosts := Value.int 0,
          services := Value.int 0,
          ugroups := Value.int 0,
          hgroups := Value.str "0",
          ngroups := Value.int 0,
          hbac := Value.int 0,
          «sudo» := Value.int 0 }
  ∧ server_init true true { failedEnv with certs := .referral } =
        { initState with
          users := Value.str "0",
          susers := Value.str "0",
          pusers := Value.str "0",
          hosts := Value.int 0,
          services := Value.int 0,
          ugroups := Value.int 0,
          hgroups := Value.str "0",
          ngroups := Value.int 0,
          hbac := Value.int 0,
          «sudo» := Value.int 0,
          zones := Value.int 0 }
  ∧ server_init true true { failedEnv with conflicts := .referral } =
        { initState with
          users := Value.str "0",
          susers := Value.str "0",
          pusers := Value.str "0",
          hosts := Value.int 0,
          services := Value.int 0,
          ugroups := Value.int 0,
          hgroups := Value.str "0",
          ngroups := Value.int 0,
          hbac := Value.int 0,
          «sudo» := Value.int 0,
          zones := Value.int 0,
          certs := Value.int 0 }
  ∧ server_init true true { failedEnv with ghosts := .referral } =
        { initState with
          users := Value.str "0",
          susers := Value.str "0",
          pusers := Value.str "0",
          hosts := Value.int 0,
          services := Value.int 0,
          ugroups := Value.int 0,
          hgroups := Value.str "0",
          ngroups := Value.int 0,
          hbac := Value.int 0,
          «sudo» := Value.int 0,
          zones := Value.int 0,
          certs := Value.int 0,
          conflicts := Value.int 0 }
  ∧ server_init true true { failedEnv with bind := .referral } =
        { initState with
          users := Value.str "0",
          susers := Value.str "0",
          pusers := Value.str "0",
          hosts := Value.int 0,
          services := Value.int 0,
          ugroups := Value.int 0,
          hgroups := Value.str "0",
          ngroups := Value.int 0,
          hbac := Value.int 0,
          «sudo» := Value.int 0,
          zones := Value.int 0,
          certs := Value.int 0,
          conflicts := Value.int 0,
          ghosts := Value.int 0 }
  ∧ server_init true true { failedEnv with replicas := .referral } =
        { initState with
          users := Value.str "0",
          susers := Value.str "0",
          pusers := Value.str "0",
          hosts := Value.int 0,
          services := Value.int 0,
          ugroups := Value.int 0,
          hgroups := Value.str "0",
          ngroups := Value.int 0,
          hbac := Value.int 0,
          «sudo» := Value.int 0,
          zones := Value.int 0,
          certs := Value.int 0,
          conflicts := Value.int 0,
          ghosts := Value.int 0,
          bind := Value.str "ERROR",
          msdcs := Value.bool false } :=
  ⟨claim_C4_amended.1
      sudoRedirectEnv
      "0" "0" "0" 0 0 0 "0" 0 0 0 0 0 0 "ERROR" "No replication agreements found" false
      (by decide) (by decide) (by decide) (by decide) (by decide) (by decide) (by decide) (by decide) (by decide) (by decide) (by decide) (by decide) (by decide) (by decide) (by decide) (by decide),
   claim_C4_amended.2.1
      { failedEnv with hbac := .referral }
      "0" "0" "0" 0 0 0 "0" 0 0 0 0 0 0 "ERROR" "No replication agreements found" false
      (by decide) (by decide) (by decide) (by decide) (by decide) (by decide) (by decide) (by decide) (by decide) (by decide) (by decide) (by decide) (by decide) (by decide) (by decide) (by decide),
   claim_C4_amended.2.2.1
      { failedEnv with users := .referral }
      (by decide),
   claim_C4_amended.2.2.2.1
      { failedEnv with susers := .referral }
      "0"
      (by decide) (by decide),
   claim_C4_amended.2.2.2.2.1
      { failedEnv with pusers := .referral }
      "0" "0"
      (by decide) (by decide) (by decide),
   claim_C4_amended.2.2.2.2.2.1
      { failedEnv with hosts := .referral }
      "0" "0" "0"
      (by decide) (by decide) (by decide) (by decide),
   claim_C4_amended.2.2.2.2.2.2.1
      { failedEnv with services := .referral }
      "0" "0" "0" 0
      (by decide) (by decide) (by decide) (by decide) (by decide),
   claim_C4_amended.2.2.2.2.2.2.2.1
      { failedEnv with ugroups := .referral }
      "0" "0" "0" 0 0
      (by decide) (by decide) (by decide) (by decide) (by decide) (by decide),
   claim_C4_amended.2.2.2.2.2.2.2.2.1
      { failedEnv with hgroups := .referral }
      "0" "0" "0" 0 0 0
      (by decide) (by decide) (by decide) (by decide) (by decide) (by decide) (by decide),
   claim_C4_amended.2.2.2.2.2.2.2.2.2.1
      { failedEnv with ngroups := .referral }
      "0" "0" "0" 0 0 0 "0"
      (by decide) (by decide) (by decide) (by decide) (by decide) (by decide) (by decide) (by decide),
   claim_C4_amended.2.2.2.2.2.2.2.2.2.2.1
      { failedEnv with zones := .referral }
      "0" "0" "0" 0 0 0 "0" 0 0 0
      (by decide) (by decide) (by decide) (by decide) (by decide) (by decide) (by decide) (by decide) (by decide) (by decide) (by decide),
   claim_C4_amended.2.2.2.2.2.2.2.2.2.2.2.1
      { failedEnv with certs := .referral }
      "0" "0" "0" 0 0 0 "0" 0 0 0 0
      (by decide) (by decide) (by decide) (by decide) (by decide) (by decide) (by decide) (by decide) (by decide) (by decide) (by decide) (by decide),
   claim_C4_amended.2.2.2.2.2.2.2.2.2.2.2.2.1
      { failedEnv with conflicts := .referral }
      "0" "0" "0" 0 0 0 "0" 0 0 0 0 0
      (by decide) (by decide) (by decide) (by decide) (by decide) (by decide) (by decide) (by decide) (by decide) (by decide) (by decide) (by decide) (by decide),
   claim_C4_amended.2.2.2.2.2.2.2.2.2.2.2.2.2.1
      { failedEnv with ghosts := .referral }
      "0" "0" "0" 0 0 0 "0" 0 0 0 0 0 0
      (by decide) (by decide) (by decide) (by decide) (by decide) (by decide) (by decide) (by decide) (by decide) (by decide) (by decide) (by decide) (by decide) (by decide),
   claim_C4_amended.2.2.2.2.2.2.2.2.2.2.2.2.2.2.1
      { failedEnv with bind := .referral }
      "0" "0" "0" 0 0 0 "0" 0 0 0 0 0 0 0
      (by decide) (by decide) (by decide) (by decide) (by decide) (by decide) (by decide) (by decide) (by decide) (by decide) (by decide) (by decide) (by decide) (by decide) (by decide),
   claim_C4_amended.2.2.2.2.2.2.2.2.2.2.2.2.2.2.2
      { failedEnv with replicas := .referral }
      "0" "0" "0" 0 0 0 "0" 0 0 0 0 0 0 0 "ERROR"
      (by decide) (by decide) (by decide) (by decide) (by decide) (by decide) (by decide) (by decide) (by decide) (by decide) (by decide) (by decide) (by decide) (by decide) (by decide) (by decide)⟩

/-- With a non-empty server collection `is_consistent` always returns a
verdict — the `IndexError` case is unreachable. -/
theorem is_consistent_isSome (servers : List ServerState) (h : servers ≠ [])
    (ck : String) (vals : List Value) :
    is_consistent servers ck vals ≠ Option.none := by
  obtain ⟨s0, rest, rfl⟩ := List.exists_cons_of_ne_nil h
  match vals with
  | [] => simp [is_consistent]
  | v :: vr =>
    simp only [is_consistent, List.map_cons, List.isEmpty_cons]
    split_ifs <;> simp

/-- Splitting a count by a boolean predicate and its negation recovers the
list length. -/
theorem countP_split {α : Type} (p : α → Bool) (l : List α) :
    l.countP p + l.countP (fun a => !(p a)) = l.length := by
  induction l with
  | nil => simp
  | cons a t ih =>
    by_cases hp : p a <;> simp [List.countP_cons, hp] <;> omega

/-- The summary fold of `get_structured_data` adds, to any starting pair of
counters, the number of consistent checks and the number of inconsistent
checks respectively. -/
theorem summary_fold (servers : List ServerState) (h : servers ≠ []) :
    ∀ (l : List (String × String)) (c i : Nat),
      List.foldlM (summaryStep servers) (c, i) l =
        some (c + l.countP (fun ck =>
                is_consistent servers ck.1
                  (servers.map (fun s => get_attr s ck.1)) == some true),
              i + l.countP (fun ck =>
                !(is_consistent servers ck.1
                  (servers.map (fun s => get_attr s ck.1)) == some true))) := by
  intro l
  induction l with
  | nil => intro c i; simp
  | cons ck rest ih =>
    intro c i
    obtain ⟨b, hb⟩ : ∃ b, is_consistent servers ck.1
        (servers.map (fun s => get_attr s ck.1)) = some b := by
      cases hic : is_consistent servers ck.1
          (servers.map (fun s => get_attr s ck.1)) with
      | none => exact absurd hic (is_consistent_isSome servers h ck.1 _)
      | some b => exact ⟨b, rfl⟩
    rw [List.foldlM_cons]
    rw [show summaryStep servers (c, i) ck
        = some (if b then (c + 1, i) else (c, i + 1)) by
      simp [summaryStep, hb]]
    cases b with
    | true =>
      rw [if_pos rfl]
      refine Eq.trans (ih (c + 1) i) ?_
      simp only [Option.some.injEq, Prod.mk.injEq, List.countP_cons, hb]
      simp
      omega
    | false =>
      rw [if_neg (by simp)]
      refine Eq.trans (ih c (i + 1)) ?_
      simp only [Option.some.injEq, Prod.mk.injEq, List.countP_cons, hb]
      simp
      omega

/-- C9: for every non-empty server collection the structured summary's
`total_checks` is the fixed enumerated metric count 17, and the two
counters produced by the summary loop are exactly the number of checks
whose `is_consistent` verdict is true and the number whose verdict is not,
so `consistent_checks + inconsistent_checks = total_checks` with each
metric contributing to exactly one counter. -/
theorem claim_C9 (servers : List ServerState) (h : servers ≠ []) :
    total_checks = 17
  ∧ ∃ c i, summaryCounts servers = some (c, i)
      ∧ c + i = total_checks
      ∧ c = checksList.countP (fun ck =>
          is_consistent servers ck.1
            (servers.map (fun s => get_attr s ck.1)) == some true)
      ∧ i = checksList.countP (fun ck =>
          !(is_consistent servers ck.1
            (servers.map (fun s => get_attr s ck.1)) == some true)) := by
  refine ⟨rfl,
    checksList.countP (fun ck =>
      is_consistent servers ck.1
        (servers.map (fun s => get_attr s ck.1)) == some true),
    checksList.countP (fun ck =>
      !(is_consistent servers ck.1
        (servers.map (fun s => get_attr s ck.1)) == some true)),
    ?_, ?_, rfl, rfl⟩
  · simpa [summaryCounts] using summary_fold servers h checksList 0 0
  · exact countP_split _ checksList

/-- Witness for C9: three servers, one reporting a single conflict — the
conflicts check is judged inconsistent, and the summary invariants hold. -/
theorem claim_C9_witness :
    (total_checks = 17
  ∧ ∃ c i,
      summaryCounts [oneConflictServer, zeroServer, zeroServer]
          = some (c, i)
      ∧ c + i = total_checks
      ∧ c = checksList.countP (fun ck =>
          is_consistent [oneConflictServer, zeroServer, zeroServer] ck.1
            ([oneConflictServer, zeroServer, zeroServer].map
              (fun s => get_attr s ck.1)) == some true)
      ∧ i = checksList.countP (fun ck =>
          !(is_consistent [oneConflictServer, zeroServer, zeroServer] ck.1
            ([oneConflictServer, zeroServer, zeroServer].map
              (fun s => get_attr s ck.1)) == some true)))
  ∧ is_consistent [oneConflictServer, zeroServer, zeroServer] "conflicts"
      ([oneConflictServer, zeroServer, zeroServer].map
        (fun s => get_attr s "conflicts")) = some false :=
  ⟨claim_C9 [oneConflictServer, zeroServer, zeroServer] (by decide),
   by decide⟩
